import Mathlib

/-!
VCNL4010 I2C driver: embedding of `vcnl4010_i2c.c`

The driver is a Linux kernel module.  Its functions are embedded as pure
functions over an explicit `World` that records, in program order, every
kernel service the C code calls (`calls`) and every diagnostic it prints
(`klog`).  The answers of the kernel and of the I2C bus are not computed by
the driver; they are supplied by the oracles `Kernel` and `Bus`, so a theorem
quantified over them covers every behaviour of the transport.

C integers: `int`/`s32` results are `Int`; a `u8` variable holds a `Nat`
obtained with `toU8` (reduction modulo 256); `size_t` is `Nat`.
-/

namespace Vcnl4010

/-! ## Constants (lines 19-24) -/

/-- Line 20: `#define SLAVE_ADDRESS 0x13`. -/
def SLAVE_ADDRESS : Nat := 0x13

/-- Line 24: `#define PROXIMITY_RATE_REGISTER_MASK (0x07)`. -/
def PROXIMITY_RATE_REGISTER_MASK : Nat := 0x07

/-- Kernel errno `ENOMEM`. -/
def ENOMEM : Int := 12

/-- Kernel `MAX_ERRNO` of `linux/err.h`. -/
def MAX_ERRNO : Int := 4095

/-! ## Kernel services called by the driver -/

/-- One call of a kernel service, with the arguments the driver passes. -/
inductive Call where
  | devm_kzalloc
  | alloc_chrdev_region (baseminor count : Nat)
  | class_create
  | device_create_with_groups (cls : Int) (dev : Nat)
  | cdev_init
  | cdev_add (dev count : Nat)
  | cdev_del
  | device_destroy (cls : Int) (dev : Nat)
  | class_destroy (cls : Int)
  | unregister_chrdev_region (dev count : Nat)
  | memdup_user (len : Nat)
  | kfree
  | i2c_transfer (addr flags len num : Nat)
  | i2c_smbus_read_byte_data (reg : Nat)
  | i2c_smbus_write_byte_data (reg val : Nat)
  deriving DecidableEq, Repr

/-- Observable history: kernel calls and printed diagnostics, oldest first. -/
structure World where
  calls : List Call
  klog : List String
  deriving DecidableEq, Repr

/-- Answers of the I2C core, as `int`/`s32` return values. -/
structure Bus where
  /-- result of `i2c_smbus_read_byte_data(client, reg)` -/
  smbus_read : Nat → Int
  /-- result of `i2c_smbus_write_byte_data(client, reg, val)` -/
  smbus_write : Nat → Nat → Int
  /-- result of `i2c_transfer(adap, &msg, 1)` for a message `addr flags len` -/
  transfer : Nat → Nat → Nat → Int

/-- Answers of the rest of the kernel.  Pointers are given as the signed value
of the pointer word (`(long)ptr`), which is what `IS_ERR`/`PTR_ERR` inspect. -/
structure Kernel where
  devm_kzalloc_ok : Bool
  alloc_chrdev_region_ret : Int
  alloc_chrdev_region_dev : Nat
  class_create_ptr : Int
  device_create_ptr : Int
  cdev_add_ret : Int
  memdup_user_ptr : Nat → Int

/-- Record a kernel call. -/
def call (c : Call) (w : World) : World := ⟨w.calls ++ [c], w.klog⟩

/-- Kernel `pr_err(fmt, ...)`: the format string is recorded. -/
def pr_err (fmt : String) (w : World) : World := ⟨w.calls, w.klog ++ [fmt]⟩

/-- Kernel `pr_info(fmt, ...)`: the format string is recorded. -/
def pr_info (fmt : String) (w : World) : World := ⟨w.calls, w.klog ++ [fmt]⟩

/-- Conversion of a C integer to `u8`. -/
def toU8 (x : Int) : Nat := (x % 256).toNat

/-- Conversion of a C integer to `ssize_t` of `bits` bits (two's complement). -/
def toSsize (bits : Nat) (x : Int) : Int :=
  let m := x % (2 : Int) ^ bits
  if m < (2 : Int) ^ (bits - 1) then m else m - (2 : Int) ^ bits

/-- Kernel `IS_ERR(ptr)`: `(unsigned long)ptr >= (unsigned long)-MAX_ERRNO`, i.e. the
signed pointer word lies in `-MAX_ERRNO .. -1`. -/
def IS_ERR (p : Int) : Bool := decide (-MAX_ERRNO ≤ p) && decide (p < 0)

/-- Kernel `PTR_ERR(ptr)`: `(long)ptr`. -/
def PTR_ERR (p : Int) : Int := p

/-! ## `sprintf(buf, "%.2x\n", v)` -/

/-- Lower-case digit table `hex_asc` of the kernel. -/
def hex_asc (d : Nat) : Char := "0123456789abcdef".toList.getD d '0'

/-- Hexadecimal digits of `n`, least significant first, as `number()` of
`lib/vsprintf.c` produces them; `fuel` bounds the number of digits. -/
def hexDigitsRev : Nat → Nat → List Char
  | 0, _ => []
  | fuel + 1, n =>
    if n < 16 then [hex_asc n] else hex_asc (n % 16) :: hexDigitsRev fuel (n / 16)

/-- Conversion `%.Px`: the digits of `n`, zero-padded on the left to at least
`precision` digits. -/
def fmt_x (precision n : Nat) : List Char :=
  let tmp := hexDigitsRev (n + 1) n
  List.replicate (precision - tmp.length) '0' ++ tmp.reverse

/-- Characters stored by `sprintf(buf, "%.2x\n", v)`, the terminating NUL
excluded; `sprintf` returns their number. -/
def sprintf_02x_nl (v : Nat) : List Char := fmt_x 2 v ++ [Char.ofNat 10]

/-! ## Attribute read handlers (lines 123-322) -/

/-- Outcome of a `show` handler: the returned `ssize_t`, the characters
`sprintf` stored in `buf` (`none` when `sprintf` was not reached), and the
history. -/
structure ShowResult where
  ret : Int
  buf : Option (List Char)
  world : World

/-- Lines 123-142. -/
def command_reg_read_show (bus : Bus) (w : World) : ShowResult :=
  let command_register_address : Nat := 0x80
  let w1 := call (.i2c_smbus_read_byte_data command_register_address) w
  let command_register_value : Nat := toU8 (bus.smbus_read command_register_address)
  if (command_register_value : Int) < 0 then
    ⟨-1, none, pr_err "%s function failed!" (pr_err "command_register_value = %d" w1)⟩
  else
    let w2 := pr_info "Command register (addr=0x%x), read value: 0x%.2x" w1
    let s := sprintf_02x_nl command_register_value
    ⟨s.length, some s, w2⟩

/-- Lines 178-198. -/
def proximity_rate_show (bus : Bus) (w : World) : ShowResult :=
  let proximity_rate_register_address : Nat := 0x82
  let w1 := call (.i2c_smbus_read_byte_data proximity_rate_register_address) w
  let proximity_rate_register_value : Nat :=
    toU8 (bus.smbus_read proximity_rate_register_address)
  if (proximity_rate_register_value : Int) < 0 then
    ⟨-1, none, pr_err "i2c_smbus_read_byte_data(...) function failed!"
      (pr_err "proximity_rate_register_value = %d" w1)⟩
  else
    let w2 := pr_info "Proximity rate register (addr=0x%x), read value: 0x%.2x" w1
    let s := sprintf_02x_nl proximity_rate_register_value
    ⟨s.length, some s, w2⟩

/-- Lines 235-255. -/
def ambient_light_high_read_show (bus : Bus) (w : World) : ShowResult :=
  let ambient_light_high_reg_address : Nat := 0x85
  let w1 := call (.i2c_smbus_read_byte_data ambient_light_high_reg_address) w
  let ambient_light_high_reg_value : Nat :=
    toU8 (bus.smbus_read ambient_light_high_reg_address)
  if (ambient_light_high_reg_value : Int) < 0 then
    ⟨-1, none, pr_err "i2c_smbus_read_byte_data(...) function failed!"
      (pr_err "ambient_light_high_reg_value = %d" w1)⟩
  else
    let w2 := pr_info "Ambient light(high byte) register (addr=0x%x), read value: 0x%.2x" w1
    let s := sprintf_02x_nl ambient_light_high_reg_value
    ⟨s.length, some s, w2⟩

/-- Lines 258-277. -/
def ambient_light_low_read_show (bus : Bus) (w : World) : ShowResult :=
  let ambient_light_low_reg_address : Nat := 0x86
  let w1 := call (.i2c_smbus_read_byte_data ambient_light_low_reg_address) w
  let ambient_light_low_reg_value : Nat :=
    toU8 (bus.smbus_read ambient_light_low_reg_address)
  if (ambient_light_low_reg_value : Int) < 0 then
    ⟨-1, none, pr_err "i2c_smbus_read_byte_data(...) function failed!"
      (pr_err "ambient_light_low_reg_value = %d" w1)⟩
  else
    let w2 := pr_info "Ambient light(low byte) register (addr=0x%x), read value: 0x%.2x" w1
    let s := sprintf_02x_nl ambient_light_low_reg_value
    ⟨s.length, some s, w2⟩

/-- Lines 280-299. -/
def proximity_high_read_show (bus : Bus) (w : World) : ShowResult :=
  let proximity_high_reg_address : Nat := 0x87
  let w1 := call (.i2c_smbus_read_byte_data proximity_high_reg_address) w
  let proximity_high_reg_value : Nat := toU8 (bus.smbus_read proximity_high_reg_address)
  if (proximity_high_reg_value : Int) < 0 then
    ⟨-1, none, pr_err "i2c_smbus_read_byte_data(...) function failed!"
      (pr_err "proximity_high_reg_value = %d" w1)⟩
  else
    let w2 := pr_info "Proximity(high byte) register (addr=0x%x), read value: 0x%.2x" w1
    let s := sprintf_02x_nl proximity_high_reg_value
    ⟨s.length, some s, w2⟩

/-- Lines 302-321. -/
def proximity_low_read_show (bus : Bus) (w : World) : ShowResult :=
  let proximity_low_reg_address : Nat := 0x88
  let w1 := call (.i2c_smbus_read_byte_data proximity_low_reg_address) w
  let proximity_low_reg_value : Nat := toU8 (bus.smbus_read proximity_low_reg_address)
  if (proximity_low_reg_value : Int) < 0 then
    ⟨-1, none, pr_err "i2c_smbus_read_byte_data(...) function failed!"
      (pr_err "proximity_low_reg_value = %d" w1)⟩
  else
    let w2 := pr_info "Proximity(low byte) register (addr=0x%x), read value: 0x%.2x" w1
    let s := sprintf_02x_nl proximity_low_reg_value
    ⟨s.length, some s, w2⟩

/-- The readable entries of `vcnl4010_device_attrs[]` (lines 325-334). -/
inductive ReadAttr where
  | command_reg_read
  | proximity_rate
  | ambient_light_high_read
  | ambient_light_low_read
  | proximity_high_read
  | proximity_low_read
  deriving DecidableEq, Repr

/-- Register address each read handler passes to the bus. -/
def ReadAttr.address : ReadAttr → Nat
  | .command_reg_read => 0x80
  | .proximity_rate => 0x82
  | .ambient_light_high_read => 0x85
  | .ambient_light_low_read => 0x86
  | .proximity_high_read => 0x87
  | .proximity_low_read => 0x88

/-- Dispatch of an attribute read to its `show` handler. -/
def ReadAttr.handler : ReadAttr → Bus → World → ShowResult
  | .command_reg_read => command_reg_read_show
  | .proximity_rate => proximity_rate_show
  | .ambient_light_high_read => ambient_light_high_read_show
  | .ambient_light_low_read => ambient_light_low_read_show
  | .proximity_high_read => proximity_high_read_show
  | .proximity_low_read => proximity_low_read_show

/-! ## Attribute write handlers (lines 145-232) -/

/-- Outcome of a `store` handler or of a stream operation: the returned
`ssize_t` and the history. -/
structure StoreResult where
  ret : Int
  world : World

/-- Lines 145-175.  `buf` is `none` for a NULL pointer, otherwise the bytes
(0..255) of the buffer by offset; `count` is the `size_t` length.  On the
last line `count` is at most 2, so its conversion to `ssize_t` keeps the
value. -/
def command_reg_write_store (bus : Bus) (buf : Option (Nat → Nat)) (count : Nat)
    (w : World) : StoreResult :=
  match buf with
  | none => ⟨-1, pr_err "Invalid writing to command register!" w⟩
  | some b =>
    let command_register_value : Nat := toU8 (b 0)
    let command_register_address : Nat := 0x80
    if count > 2 then
      ⟨-1, pr_err "Only byte writing to command register is allowed!" w⟩
    else
      let w1 := call (.i2c_smbus_write_byte_data command_register_address
        command_register_value) w
      let write_success : Int :=
        bus.smbus_write command_register_address command_register_value
      if write_success < 0 then
        ⟨-1, pr_err "%s function failed!" (pr_err "write_success = %d" w1)⟩
      else
        ⟨count, pr_info "Command register (addr=0x%x), written value: 0x%x" w1⟩

/-- Lines 200-232. -/
def proximity_rate_store (bus : Bus) (buf : Option (Nat → Nat)) (count : Nat)
    (w : World) : StoreResult :=
  match buf with
  | none => ⟨-1, pr_err "Invalid writing to command register!" w⟩
  | some b =>
    let proximity_rate_register_value : Nat := toU8 (b 0)
    let proximity_rate_register_address : Nat := 0x82
    let proximity_rate_register_value : Nat :=
      proximity_rate_register_value &&& PROXIMITY_RATE_REGISTER_MASK
    if count > 2 then
      ⟨-1, pr_err "Only byte writing to proximity rate register is allowed!" w⟩
    else
      let w1 := call (.i2c_smbus_write_byte_data proximity_rate_register_address
        proximity_rate_register_value) w
      let write_success : Int :=
        bus.smbus_write proximity_rate_register_address proximity_rate_register_value
      if write_success < 0 then
        ⟨-1, pr_err "i2c_smbus_write_byte_data(...) function failed!"
          (pr_err "write_success = %d" w1)⟩
      else
        ⟨count, pr_info "Proximity rate register (addr=0x%x), written value: 0x%.2x\n" w1⟩

/-- The writable entries of `vcnl4010_device_attrs[]`. -/
inductive WriteAttr where
  | command_reg_write
  | proximity_rate
  deriving DecidableEq, Repr

/-- Dispatch of an attribute write to its `store` handler. -/
def WriteAttr.handler : WriteAttr → Bus → Option (Nat → Nat) → Nat → World → StoreResult
  | .command_reg_write => command_reg_write_store
  | .proximity_rate => proximity_rate_store

/-! ## Stream write (lines 87-113) -/

/-- Lines 87-113.  `len` is the `size_t` length, `bits` the width of `long`.
`msg.len` is the 16-bit field of `struct i2c_msg`.  The returned expression
`ret == 1 ? len : ret` has type `size_t` and is converted to `ssize_t`. -/
def vcnl4010_write (bits : Nat) (k : Kernel) (bus : Bus) (len : Nat) (w : World) :
    StoreResult :=
  let w1 := call (.memdup_user len) w
  let temp : Int := k.memdup_user_ptr len
  let w2 := if IS_ERR temp then pr_err "Failed to duplicate memory -> temp!" w1 else w1
  let msg_addr : Nat := SLAVE_ADDRESS
  let msg_flags : Nat := 0
  let msg_len : Nat := len % 65536
  let w3 := call (.i2c_transfer msg_addr msg_flags msg_len 1) w2
  let ret : Int := bus.transfer msg_addr msg_flags msg_len
  let w4 := if ret < 0 then pr_err "i2c_transfer() error!" w3 else w3
  let w5 := call .kfree w4
  ⟨toSsize bits (if ret = 1 then (len : Int) else ret), w5⟩

/-! ## Probe and remove (lines 343-434) -/

/-- The fields of `struct vcnl4010` (lines 27-32) that probe fills and remove
reads: the device number and the class pointer. -/
structure vcnl4010 where
  dev : Nat
  cls : Int
  deriving DecidableEq, Repr

/-- Outcome of probe: the returned `int`, the driver data attached to the
client (`none` when the allocation failed), and the history. -/
structure ProbeResult where
  ret : Int
  drvdata : Option vcnl4010
  world : World

/-- Lines 343-418.  The result of each default register write is stored into
a `u8` local that is never read again. -/
def vcnl4010_probe (k : Kernel) (bus : Bus) (w : World) : ProbeResult :=
  let w := call .devm_kzalloc w
  if !k.devm_kzalloc_ok then ⟨-ENOMEM, none, w⟩ else
  let w := call (.alloc_chrdev_region 0 1) w
  let err : Int := k.alloc_chrdev_region_ret
  if err < 0 then
    ⟨err, some ⟨0, 0⟩, pr_info "Unable to do device registration for %s" w⟩
  else
  let dev : Nat := k.alloc_chrdev_region_dev
  let w := call .class_create w
  let cls : Int := k.class_create_ptr
  if IS_ERR cls then
    let err : Int := PTR_ERR cls
    let w := pr_err "Unable to create device class for %s" w
    let w := call (.unregister_chrdev_region dev 1) w
    ⟨err, some ⟨dev, cls⟩, w⟩
  else
  let w := call (.device_create_with_groups cls dev) w
  let device : Int := k.device_create_ptr
  if IS_ERR device then
    let err : Int := PTR_ERR device
    let w := pr_err "Unable to create device for %s" w
    let w := call (.class_destroy cls) w
    let w := call (.unregister_chrdev_region dev 1) w
    ⟨err, some ⟨dev, cls⟩, w⟩
  else
  let w := call .cdev_init w
  let w := call (.cdev_add dev 1) w
  let err : Int := k.cdev_add_ret
  if err < 0 then
    let w := pr_err "Unable to add the device for %s" w
    let w := call (.device_destroy cls dev) w
    let w := call (.class_destroy cls) w
    let w := call (.unregister_chrdev_region dev 1) w
    ⟨err, some ⟨dev, cls⟩, w⟩
  else
  let w := pr_info "Sensor initializing ......." w
  let command_register_value : Nat := 0xFF
  let command_register_address : Nat := 0x80
  let w := call (.i2c_smbus_write_byte_data command_register_address
    command_register_value) w
  let _command_register_value : Nat :=
    toU8 (bus.smbus_write command_register_address command_register_value)
  let prox_rate_register_value : Nat := 0x00
  let prox_rate_register_address : Nat := 0x82
  let w := call (.i2c_smbus_write_byte_data prox_rate_register_address
    prox_rate_register_value) w
  let _prox_rate_register_value : Nat :=
    toU8 (bus.smbus_write prox_rate_register_address prox_rate_register_value)
  let als_register_value : Nat := 0x9D
  let als_register_address : Nat := 0x84
  let w := call (.i2c_smbus_write_byte_data als_register_address als_register_value) w
  let _als_register_value : Nat :=
    toU8 (bus.smbus_write als_register_address als_register_value)
  ⟨0, some ⟨dev, cls⟩, w⟩

/-- Lines 420-434.  `d` is the driver data `i2c_get_clientdata(client)`. -/
def vcnl4010_remove (d : vcnl4010) (w : World) : Int × World :=
  let w := call .cdev_del w
  let w := call (.device_destroy d.cls d.dev) w
  let w := pr_info "VCNL4010 - Device successfully destroyed!" w
  let w := call (.class_destroy d.cls) w
  let w := pr_info "VCNL4010 - Class successfully unregistered!" w
  let w := call (.unregister_chrdev_region d.dev 1) w
  let w := pr_info "VCNL4010 - Device number successfully freed!" w
  (0, w)

/-! ## Vocabulary of the properties -/

/-- The four structural resources of probe. -/
inductive Resource where
  | chrdev_region
  | class_handle
  | device_node
  | cdev
  deriving DecidableEq, Repr

/-- Resource a call acquires, if any. -/
def Call.acquires : Call → Option Resource
  | .alloc_chrdev_region _ _ => some .chrdev_region
  | .class_create => some .class_handle
  | .device_create_with_groups _ _ => some .device_node
  | .cdev_add _ _ => some .cdev
  | _ => none

/-- Resource a call releases, if any. -/
def Call.releases : Call → Option Resource
  | .unregister_chrdev_region _ _ => some .chrdev_region
  | .class_destroy _ => some .class_handle
  | .device_destroy _ _ => some .device_node
  | .cdev_del => some .cdev
  | _ => none

/-- A call that puts a message on the I2C bus. -/
def Call.isBusTransfer : Call → Bool
  | .i2c_transfer _ _ _ _ => true
  | .i2c_smbus_read_byte_data _ => true
  | .i2c_smbus_write_byte_data _ _ => true
  | _ => false

/-- The release calls of a history, in order. -/
def releaseCalls (cs : List Call) : List Call := cs.filter (fun c => c.releases.isSome)

/-- The bus transfers of a history, in order. -/
def busTransfers (cs : List Call) : List Call := cs.filter Call.isBusTransfer

/-- The empty history. -/
def World.empty : World := ⟨[], []⟩

/-- Specification side: the lower-case hexadecimal digit for `d < 16`, by
character code (`0`..`9` are 48..57, `a`..`f` are 97..102). -/
def lowerHexDigit (d : Nat) : Char :=
  if d < 10 then Char.ofNat (48 + d) else Char.ofNat (97 + (d - 10))

/-- A bus on which every operation fails with `-EIO` (-5). -/
def busFail : Bus := ⟨fun _ => -5, fun _ _ => -5, fun _ _ _ => -5⟩

/-- A bus on which every operation succeeds: reads give `0x2a`, register
writes give 0, a transfer reports one message. -/
def busOk : Bus := ⟨fun _ => 0x2a, fun _ _ => 0, fun _ _ _ => 1⟩

/-- Register address each write handler passes to the bus. -/
def WriteAttr.address : WriteAttr → Nat
  | .command_reg_write => 0x80
  | .proximity_rate => 0x82

/-- Data byte each write handler passes to the bus for the first input byte
`v`: the command handler passes it unchanged, the proximity-rate handler
masks it with `PROXIMITY_RATE_REGISTER_MASK`. -/
def WriteAttr.data : WriteAttr → Nat → Nat
  | .command_reg_write, v => v
  | .proximity_rate, v => v &&& PROXIMITY_RATE_REGISTER_MASK

/-- A sysfs buffer whose every byte is `0x41`. -/
def bufA : Option (Nat → Nat) := some (fun _ => 0x41)

/-- The calls made between the history `w` and a later history `w2`. -/
def callsAfter (w w2 : World) : List Call := w2.calls.drop w.calls.length

/-- Probe fails exactly at the acquisition of resource `s`: the allocation
and every earlier acquisition succeed, the acquisition of `s` reports an
error (lines 360, 367, 378, 389). -/
def Kernel.failsAt (k : Kernel) : Resource → Bool
  | .chrdev_region => k.devm_kzalloc_ok && decide (k.alloc_chrdev_region_ret < 0)
  | .class_handle =>
    k.devm_kzalloc_ok && !decide (k.alloc_chrdev_region_ret < 0) && IS_ERR k.class_create_ptr
  | .device_node =>
    k.devm_kzalloc_ok && !decide (k.alloc_chrdev_region_ret < 0) && !IS_ERR k.class_create_ptr
      && IS_ERR k.device_create_ptr
  | .cdev =>
    k.devm_kzalloc_ok && !decide (k.alloc_chrdev_region_ret < 0) && !IS_ERR k.class_create_ptr
      && !IS_ERR k.device_create_ptr && decide (k.cdev_add_ret < 0)

/-- Every structural acquisition of probe succeeds. -/
def Kernel.structuralOk (k : Kernel) : Bool :=
  k.devm_kzalloc_ok && !decide (k.alloc_chrdev_region_ret < 0) && !IS_ERR k.class_create_ptr
    && !IS_ERR k.device_create_ptr && !decide (k.cdev_add_ret < 0)

/-- Error code the kernel reports for the acquisition of each resource. -/
def Kernel.stageError (k : Kernel) : Resource → Int
  | .chrdev_region => k.alloc_chrdev_region_ret
  | .class_handle => PTR_ERR k.class_create_ptr
  | .device_node => PTR_ERR k.device_create_ptr
  | .cdev => k.cdev_add_ret

/-- Driver data probe builds from the kernel answers. -/
def Kernel.device (k : Kernel) : vcnl4010 := ⟨k.alloc_chrdev_region_dev, k.class_create_ptr⟩

/-- Specification side: the releases expected when the acquisition of `s`
fails, the resources of the earlier stages in reverse order of acquisition. -/
def expectedRollback (d : vcnl4010) : Resource → List Call
  | .chrdev_region => []
  | .class_handle => [.unregister_chrdev_region d.dev 1]
  | .device_node => [.class_destroy d.cls, .unregister_chrdev_region d.dev 1]
  | .cdev => [.device_destroy d.cls d.dev, .class_destroy d.cls,
      .unregister_chrdev_region d.dev 1]

/-- Specification side: the resources acquired by the stages before `s`, in
order of acquisition. -/
def acquiredBefore : Resource → List Resource
  | .chrdev_region => []
  | .class_handle => [.chrdev_region]
  | .device_node => [.chrdev_region, .class_handle]
  | .cdev => [.chrdev_region, .class_handle, .device_node]

/-- A kernel whose every service succeeds: device number 240:0, valid class
and device pointers, `memdup_user` returning `ZERO_SIZE_PTR`. -/
def kernelOk : Kernel := ⟨true, 0, 251658240, 4096, 8192, 0, fun _ => 16⟩

/-- Kernels failing with `-ENOMEM` (-12) at each structural stage in turn. -/
def kernelFailChrdev : Kernel := ⟨true, -12, 0, 4096, 8192, 0, fun _ => 16⟩

/-- See `kernelFailChrdev`. -/
def kernelFailClass : Kernel := ⟨true, 0, 251658240, -12, 8192, 0, fun _ => 16⟩

/-- See `kernelFailChrdev`. -/
def kernelFailNode : Kernel := ⟨true, 0, 251658240, 4096, -12, 0, fun _ => 16⟩

/-- See `kernelFailChrdev`. -/
def kernelFailCdev : Kernel := ⟨true, 0, 251658240, 4096, 8192, -12, fun _ => 16⟩

/-! ## Lemmas -/

theorem sprintf_02x_nl_byte (v : Nat) (hv : v < 256) :
    sprintf_02x_nl v = [lowerHexDigit (v / 16), lowerHexDigit (v % 16), Char.ofNat 10] := by
  interval_cases v <;> rfl

theorem toU8_natCast (b : Nat) (hb : b < 256) : toU8 (b : Int) = b := by
  unfold toU8; omega

theorem toU8_lt (x : Int) : toU8 x < 256 := by
  unfold toU8; omega

theorem toU8_not_neg (x : Int) : ¬ ((toU8 x : Nat) : Int) < 0 :=
  not_lt.mpr (Int.ofNat_nonneg _)

theorem sprintf_02x_nl_length (x : Int) : (sprintf_02x_nl (toU8 x)).length = 3 := by
  rw [sprintf_02x_nl_byte _ (toU8_lt x)]; rfl

theorem toSsize_of_int (bits : Nat) (hbits : bits = 32 ∨ bits = 64) (x : Int)
    (hlo : -2147483648 ≤ x) (hhi : x < 2147483648) : toSsize bits x = x := by
  rcases hbits with rfl | rfl <;>
    simp only [toSsize] <;> norm_num <;> split <;> omega

theorem callsAfter_append (w w2 : World) (cs : List Call) (h : w2.calls = w.calls ++ cs) :
    callsAfter w w2 = cs := by
  simp [callsAfter, h]

/-! ## Attribute reads -/

/-- C10: when the bus read of a handler's register succeeds with the byte `b`
(0..255), that handler stores exactly three characters, the two lower-case
hexadecimal digits of `b` (high nibble first, zero-padded) and a newline,
returns 3, and has issued exactly that one bus read. -/
theorem read_show_formats_byte (a : ReadAttr) (bus : Bus) (w : World) (b : Nat)
    (hb : b < 256) (hread : bus.smbus_read a.address = (b : Int)) :
    (a.handler bus w).ret = 3 ∧
    (a.handler bus w).buf =
      some [lowerHexDigit (b / 16), lowerHexDigit (b % 16), Char.ofNat 10] ∧
    (a.handler bus w).world.calls = w.calls ++ [Call.i2c_smbus_read_byte_data a.address] := by
  have hs := sprintf_02x_nl_byte b hb
  have hu := toU8_natCast b hb
  have hn : ¬ ((b : Int) < 0) := by omega
  cases a <;>
    simp only [ReadAttr.handler, ReadAttr.address, command_reg_read_show,
      proximity_rate_show, ambient_light_high_read_show, ambient_light_low_read_show,
      proximity_high_read_show, proximity_low_read_show] at hread ⊢ <;>
    rw [hread] <;>
    simp [hn, hu, hs, call, pr_info]

/-- Witness of C10: reading `0x2a` from the command register gives `2a` and a
newline. -/
theorem read_show_formats_byte_witness :
    (0x2a < 256 ∧ busOk.smbus_read ReadAttr.command_reg_read.address = ((0x2a : Nat) : Int)) ∧
    ((ReadAttr.command_reg_read.handler busOk World.empty).ret = 3 ∧
     (ReadAttr.command_reg_read.handler busOk World.empty).buf =
       some [lowerHexDigit (0x2a / 16), lowerHexDigit (0x2a % 16), Char.ofNat 10] ∧
     (ReadAttr.command_reg_read.handler busOk World.empty).world.calls =
       World.empty.calls ++ [Call.i2c_smbus_read_byte_data ReadAttr.command_reg_read.address]) :=
  ⟨⟨by decide, rfl⟩,
   read_show_formats_byte ReadAttr.command_reg_read busOk World.empty 0x2a (by decide) rfl⟩

/-- C1 (code at the failing input): when every bus read fails with -5 (`-EIO`),
each of the six read handlers returns 3, not a negative value, and stores the
formatted text `fb` and a newline, the byte 0xfb being -5 truncated to `u8`.
More generally, for every result of the bus read, negative or not, each
handler returns 3 and stores the formatted text of the result truncated to
`u8`. -/
theorem read_show_bus_error_is_formatted :
    ((command_reg_read_show busFail World.empty).ret = 3 ∧
     (command_reg_read_show busFail World.empty).buf = some ['f', 'b', Char.ofNat 10]) ∧
    ((proximity_rate_show busFail World.empty).ret = 3 ∧
     (proximity_rate_show busFail World.empty).buf = some ['f', 'b', Char.ofNat 10]) ∧
    ((ambient_light_high_read_show busFail World.empty).ret = 3 ∧
     (ambient_light_high_read_show busFail World.empty).buf = some ['f', 'b', Char.ofNat 10]) ∧
    ((ambient_light_low_read_show busFail World.empty).ret = 3 ∧
     (ambient_light_low_read_show busFail World.empty).buf = some ['f', 'b', Char.ofNat 10]) ∧
    ((proximity_high_read_show busFail World.empty).ret = 3 ∧
     (proximity_high_read_show busFail World.empty).buf = some ['f', 'b', Char.ofNat 10]) ∧
    ((proximity_low_read_show busFail World.empty).ret = 3 ∧
     (proximity_low_read_show busFail World.empty).buf = some ['f', 'b', Char.ofNat 10]) ∧
    (∀ (a : ReadAttr) (bus : Bus) (w : World),
      (a.handler bus w).ret = 3 ∧
      (a.handler bus w).buf = some (sprintf_02x_nl (toU8 (bus.smbus_read a.address)))) := by
  refine ⟨⟨?_, ?_⟩, ⟨?_, ?_⟩, ⟨?_, ?_⟩, ⟨?_, ?_⟩, ⟨?_, ?_⟩, ⟨?_, ?_⟩, ?_⟩
  all_goals first
    | rfl
    | (intro a bus w
       cases a <;>
         simp [ReadAttr.handler, ReadAttr.address, command_reg_read_show,
           proximity_rate_show, ambient_light_high_read_show, ambient_light_low_read_show,
           proximity_high_read_show, proximity_low_read_show, sprintf_02x_nl_length,
           toU8_not_neg])

/-! ## Attribute writes -/

/-- C2: for every byte `v` in 0..255 at `buf[0]` and every accepted length
(`count` at most 2), `proximity_rate_store` issues exactly one bus call, the
register write to address 0x82 whose data byte is `v AND 0x07`. -/
theorem proximity_rate_store_transmits_masked (bus : Bus) (b : Nat → Nat) (v count : Nat)
    (w : World) (hv : v < 256) (hb : b 0 = v) (hc : count ≤ 2) :
    (proximity_rate_store bus (some b) count w).world.calls =
      w.calls ++ [Call.i2c_smbus_write_byte_data 0x82 (v &&& 0x07)] := by
  have hu : toU8 ((b 0 : Nat) : Int) = v := by rw [hb]; exact toU8_natCast v hv
  have hc2 : ¬ (count > 2) := by omega
  simp only [proximity_rate_store, hu, hc2, if_false, PROXIMITY_RATE_REGISTER_MASK]
  split <;> simp [call, pr_err, pr_info]

/-- Witness of C2: the byte 0xFF written with length 1 is transmitted as 0x07. -/
theorem proximity_rate_store_transmits_masked_witness :
    (0xFF < 256 ∧ (fun _ : Nat => 0xFF) 0 = 0xFF ∧ 1 ≤ 2) ∧
    (proximity_rate_store busOk (some (fun _ => 0xFF)) 1 World.empty).world.calls =
      World.empty.calls ++ [Call.i2c_smbus_write_byte_data 0x82 (0xFF &&& 0x07)] :=
  ⟨⟨by decide, rfl, by decide⟩,
   proximity_rate_store_transmits_masked busOk (fun _ => 0xFF) 0xFF 1 World.empty
     (by decide) rfl (by decide)⟩

/-- C3 is false as stated: with a length of two bytes (more than one) both
write handlers return 2, not an error, and issue a register write. -/
theorem store_length_two_not_rejected :
    ((command_reg_write_store busOk bufA 2 World.empty).ret = 2 ∧
     busTransfers (command_reg_write_store busOk bufA 2 World.empty).world.calls =
       [Call.i2c_smbus_write_byte_data 0x80 0x41]) ∧
    ((proximity_rate_store busOk bufA 2 World.empty).ret = 2 ∧
     busTransfers (proximity_rate_store busOk bufA 2 World.empty).world.calls =
       [Call.i2c_smbus_write_byte_data 0x82 0x01]) := by
  refine ⟨⟨?_, ?_⟩, ⟨?_, ?_⟩⟩ <;> rfl

/-- C3 amended: the length guard of both write handlers is `count > 2`.  For
every input whose length `count` is greater than two, the handler returns -1
and issues no call at all, whatever the buffer and the bus.  For every
non-null buffer and every length of at most two (length two included) the
input is not rejected for its length: the handler issues exactly one call,
the register write of the data byte derived from `buf[0]` (unchanged to 0x80
for the command register, masked with 0x07 to 0x82 for the proximity rate),
and returns `count` when the bus result is non-negative and -1 when it is
negative. -/
theorem store_length_guard (a : WriteAttr) (bus : Bus) (buf : Option (Nat → Nat))
    (count : Nat) (w : World) :
    (2 < count →
      (a.handler bus buf count w).ret = -1 ∧
      (a.handler bus buf count w).world.calls = w.calls) ∧
    (∀ b : Nat → Nat, buf = some b → count ≤ 2 →
      (a.handler bus buf count w).world.calls =
        w.calls ++ [Call.i2c_smbus_write_byte_data a.address
          (a.data (toU8 ((b 0 : Nat) : Int)))] ∧
      busTransfers (callsAfter w (a.handler bus buf count w).world) =
        [Call.i2c_smbus_write_byte_data a.address (a.data (toU8 ((b 0 : Nat) : Int)))] ∧
      (a.handler bus buf count w).ret =
        (if bus.smbus_write a.address (a.data (toU8 ((b 0 : Nat) : Int))) < 0 then -1
         else (count : Int))) := by
  constructor
  · intro hc
    cases a <;> cases buf <;>
      simp [WriteAttr.handler, command_reg_write_store, proximity_rate_store, hc, pr_err]
  · intro b hb hc
    subst hb
    have hc2 : ¬ (count > 2) := by omega
    have hcalls : (a.handler bus (some b) count w).world.calls =
        w.calls ++ [Call.i2c_smbus_write_byte_data a.address
          (a.data (toU8 ((b 0 : Nat) : Int)))] := by
      cases a <;>
        simp only [WriteAttr.handler, WriteAttr.address, WriteAttr.data,
          command_reg_write_store, proximity_rate_store, hc2, if_false] <;>
        split <;> simp [call, pr_err, pr_info]
    refine ⟨hcalls, ?_, ?_⟩
    · rw [callsAfter_append w _ _ hcalls]; rfl
    · cases a <;>
        simp only [WriteAttr.handler, WriteAttr.address, WriteAttr.data,
          command_reg_write_store, proximity_rate_store, hc2, if_false] <;>
        split <;> rfl

/-- Witness of C3 amended: a three-byte input to the command register is
rejected without any call; a two-byte input to the proximity-rate register
is written (0x41 masked to 0x01) and returns 2 on a working bus, and is
written and returns -1 on a failing bus. -/
theorem store_length_guard_witness :
    (2 < 3 ∧
      (WriteAttr.command_reg_write.handler busOk bufA 3 World.empty).ret = -1 ∧
      (WriteAttr.command_reg_write.handler busOk bufA 3 World.empty).world.calls = []) ∧
    (2 ≤ 2 ∧
      (WriteAttr.proximity_rate.handler busOk (some (fun _ => 0x41)) 2 World.empty).world.calls =
        [Call.i2c_smbus_write_byte_data 0x82 0x01] ∧
      (WriteAttr.proximity_rate.handler busOk (some (fun _ => 0x41)) 2 World.empty).ret = 2) ∧
    (2 ≤ 2 ∧
      (WriteAttr.proximity_rate.handler busFail (some (fun _ => 0x41)) 2 World.empty).world.calls =
        [Call.i2c_smbus_write_byte_data 0x82 0x01] ∧
      (WriteAttr.proximity_rate.handler busFail (some (fun _ => 0x41)) 2 World.empty).ret = -1) :=
  ⟨⟨by decide,
    (store_length_guard WriteAttr.command_reg_write busOk bufA 3 World.empty).1 (by decide)⟩,
   ⟨by decide,
    ((store_length_guard WriteAttr.proximity_rate busOk (some (fun _ => 0x41)) 2
      World.empty).2 (fun _ => 0x41) rfl (by decide)).1,
    ((store_length_guard WriteAttr.proximity_rate busOk (some (fun _ => 0x41)) 2
      World.empty).2 (fun _ => 0x41) rfl (by decide)).2.2⟩,
   ⟨by decide,
    ((store_length_guard WriteAttr.proximity_rate busFail (some (fun _ => 0x41)) 2
      World.empty).2 (fun _ => 0x41) rfl (by decide)).1,
    ((store_length_guard WriteAttr.proximity_rate busFail (some (fun _ => 0x41)) 2
      World.empty).2 (fun _ => 0x41) rfl (by decide)).2.2⟩⟩

/-- C4 is false as stated: a non-null buffer of accepted length 2 whose bus
write succeeds (result 0) makes both handlers return 2, not 1. -/
theorem store_success_returns_two :
    (0 : Int) ≤ busOk.smbus_write 0x80 0x41 ∧ (0 : Int) ≤ busOk.smbus_write 0x82 0x01 ∧
    (command_reg_write_store busOk bufA 2 World.empty).ret ≠ 1 ∧
    (proximity_rate_store busOk bufA 2 World.empty).ret ≠ 1 := by
  refine ⟨?_, ?_, ?_, ?_⟩ <;> decide

/-- C4 amended: when a write handler succeeds (non-null buffer, `count` at
most 2, non-negative result of its bus write) it returns `count`, the input
length; the value is 1 when `count` is 1. -/
theorem store_success_returns_count (a : WriteAttr) (bus : Bus) (b : Nat → Nat)
    (count : Nat) (w : World) (hc : count ≤ 2)
    (hw : 0 ≤ bus.smbus_write a.address (a.data (toU8 ((b 0 : Nat) : Int)))) :
    (a.handler bus (some b) count w).ret = (count : Int) ∧
    (count = 1 → (a.handler bus (some b) count w).ret = 1) ∧
    (a.handler bus (some b) count w).world.calls =
      w.calls ++ [Call.i2c_smbus_write_byte_data a.address (a.data (toU8 ((b 0 : Nat) : Int)))] := by
  have hc2 : ¬ (count > 2) := by omega
  cases a <;>
    simp only [WriteAttr.address, WriteAttr.data] at hw <;>
    have hw2 := not_lt.mpr hw <;>
    simp [WriteAttr.handler, WriteAttr.address, WriteAttr.data, command_reg_write_store,
      proximity_rate_store, hc2, hw2, call, pr_info]

/-- Witness of C4 amended: one byte written to the proximity-rate register. -/
theorem store_success_returns_count_witness :
    (1 ≤ 2 ∧ (0 : Int) ≤ busOk.smbus_write WriteAttr.proximity_rate.address
      (WriteAttr.proximity_rate.data (toU8 (((fun _ : Nat => 0x41) 0 : Nat) : Int)))) ∧
    ((WriteAttr.proximity_rate.handler busOk (some (fun _ => 0x41)) 1 World.empty).ret =
       ((1 : Nat) : Int) ∧
     (1 = 1 → (WriteAttr.proximity_rate.handler busOk (some (fun _ => 0x41)) 1
       World.empty).ret = 1) ∧
     (WriteAttr.proximity_rate.handler busOk (some (fun _ => 0x41)) 1 World.empty).world.calls =
       World.empty.calls ++ [Call.i2c_smbus_write_byte_data WriteAttr.proximity_rate.address
         (WriteAttr.proximity_rate.data (toU8 (((fun _ : Nat => 0x41) 0 : Nat) : Int)))]) :=
  ⟨⟨by decide, by decide⟩,
   store_success_returns_count WriteAttr.proximity_rate busOk (fun _ => 0x41) 1 World.empty
     (by decide) (by decide)⟩

/-! ## Stream write -/

/-- C8 is false as stated: a stream write of length 0 performs one
`i2c_transfer`; it returns 0 when the transfer reports one message, and the
error -5 when the transfer fails. -/
theorem write_len_zero_transfers :
    busTransfers (vcnl4010_write 32 kernelOk busOk 0 World.empty).world.calls =
      [Call.i2c_transfer 0x13 0 0 1] ∧
    (vcnl4010_write 32 kernelOk busOk 0 World.empty).ret = 0 ∧
    busTransfers (vcnl4010_write 32 kernelOk busFail 0 World.empty).world.calls =
      [Call.i2c_transfer 0x13 0 0 1] ∧
    (vcnl4010_write 32 kernelOk busFail 0 World.empty).ret = -5 := by
  refine ⟨?_, ?_, ?_, ?_⟩ <;> decide

/-- C8 amended: for a stream write of length 0, whatever the kernel and the
bus answer, `vcnl4010_write` makes exactly the calls `memdup_user`, one
`i2c_transfer` of a zero-length message to address 0x13, and `kfree`; it
returns 0 when the transfer reports one message and the result of the
transfer otherwise (a negative error code on a transport failure). -/
theorem write_len_zero (bits : Nat) (k : Kernel) (bus : Bus) (w : World)
    (hbits : bits = 32 ∨ bits = 64)
    (hlo : -2147483648 ≤ bus.transfer 0x13 0 0) (hhi : bus.transfer 0x13 0 0 < 2147483648) :
    callsAfter w (vcnl4010_write bits k bus 0 w).world =
      [Call.memdup_user 0, Call.i2c_transfer 0x13 0 0 1, Call.kfree] ∧
    busTransfers (callsAfter w (vcnl4010_write bits k bus 0 w).world) =
      [Call.i2c_transfer 0x13 0 0 1] ∧
    (vcnl4010_write bits k bus 0 w).ret =
      (if bus.transfer 0x13 0 0 = 1 then 0 else bus.transfer 0x13 0 0) := by
  have hcalls : (vcnl4010_write bits k bus 0 w).world.calls =
      w.calls ++ [Call.memdup_user 0, Call.i2c_transfer 0x13 0 0 1, Call.kfree] := by
    simp only [vcnl4010_write, SLAVE_ADDRESS]
    split <;> split <;> simp [call, pr_err]
  have hc := callsAfter_append w _ _ hcalls
  refine ⟨hc, ?_, ?_⟩
  · rw [hc]; rfl
  · simp only [vcnl4010_write, SLAVE_ADDRESS]
    by_cases h1 : bus.transfer 0x13 0 0 = 1
    · simp only [Nat.zero_mod] at h1 ⊢
      rw [if_pos h1, if_pos h1]
      exact toSsize_of_int bits hbits _ (by norm_num) (by norm_num)
    · simp only [Nat.zero_mod] at h1 hlo hhi ⊢
      rw [if_neg h1, if_neg h1]
      exact toSsize_of_int bits hbits _ hlo hhi

/-- Witness of C8 amended: a failing transport on a 32-bit kernel. -/
theorem write_len_zero_witness :
    ((32 = 32 ∨ 32 = 64) ∧ -2147483648 ≤ busFail.transfer 0x13 0 0 ∧
      busFail.transfer 0x13 0 0 < 2147483648) ∧
    (callsAfter World.empty (vcnl4010_write 32 kernelOk busFail 0 World.empty).world =
       [Call.memdup_user 0, Call.i2c_transfer 0x13 0 0 1, Call.kfree] ∧
     busTransfers (callsAfter World.empty (vcnl4010_write 32 kernelOk busFail 0 World.empty).world) =
       [Call.i2c_transfer 0x13 0 0 1] ∧
     (vcnl4010_write 32 kernelOk busFail 0 World.empty).ret =
       (if busFail.transfer 0x13 0 0 = 1 then 0 else busFail.transfer 0x13 0 0)) :=
  ⟨⟨Or.inl rfl, by decide, by decide⟩,
   write_len_zero 32 kernelOk busFail World.empty (Or.inl rfl) (by decide) (by decide)⟩

/-! ## Probe -/

/-- C5: when probe fails at the acquisition of resource `s` (device number,
class, device node or cdev) it returns the error code of that stage, issues
no bus transfer, hence none of the default register writes, and its release
calls are exactly the expected rollback: nothing for the device number; the
device number for the class; the class then the device number for the node;
the node, the class, then the device number for the cdev.  The released
resources are those acquired before `s`, each once, in reverse order. -/
theorem probe_failure_rollback (k : Kernel) (bus : Bus) (w : World) (s : Resource)
    (h : k.failsAt s = true) :
    (vcnl4010_probe k bus w).ret = k.stageError s ∧
    busTransfers (callsAfter w (vcnl4010_probe k bus w).world) = [] ∧
    releaseCalls (callsAfter w (vcnl4010_probe k bus w).world) = expectedRollback k.device s ∧
    (callsAfter w (vcnl4010_probe k bus w).world).filterMap Call.acquires =
      acquiredBefore s ++ [s] ∧
    (callsAfter w (vcnl4010_probe k bus w).world).filterMap Call.releases =
      (acquiredBefore s).reverse := by
  cases s <;>
    simp only [Kernel.failsAt, Bool.and_eq_true, Bool.not_eq_true', decide_eq_true_eq,
      decide_eq_false_iff_not] at h
  · obtain ⟨h0, h1⟩ := h
    have hc : (vcnl4010_probe k bus w).world.calls =
        w.calls ++ [Call.devm_kzalloc, Call.alloc_chrdev_region 0 1] := by
      simp [vcnl4010_probe, h0, h1, call, pr_info]
    rw [callsAfter_append w _ _ hc]
    refine ⟨?_, rfl, rfl, rfl, rfl⟩
    simp [vcnl4010_probe, h0, h1, Kernel.stageError]
  · obtain ⟨⟨h0, h1⟩, h2⟩ := h
    have hc : (vcnl4010_probe k bus w).world.calls =
        w.calls ++ [Call.devm_kzalloc, Call.alloc_chrdev_region 0 1, Call.class_create,
          Call.unregister_chrdev_region k.alloc_chrdev_region_dev 1] := by
      simp [vcnl4010_probe, h0, h1, h2, call, pr_err]
    rw [callsAfter_append w _ _ hc]
    refine ⟨?_, rfl, rfl, rfl, rfl⟩
    simp [vcnl4010_probe, h0, h1, h2, Kernel.stageError]
  · obtain ⟨⟨⟨h0, h1⟩, h2⟩, h3⟩ := h
    have hc : (vcnl4010_probe k bus w).world.calls =
        w.calls ++ [Call.devm_kzalloc, Call.alloc_chrdev_region 0 1, Call.class_create,
          Call.device_create_with_groups k.class_create_ptr k.alloc_chrdev_region_dev,
          Call.class_destroy k.class_create_ptr,
          Call.unregister_chrdev_region k.alloc_chrdev_region_dev 1] := by
      simp [vcnl4010_probe, h0, h1, h2, h3, call, pr_err]
    rw [callsAfter_append w _ _ hc]
    refine ⟨?_, rfl, rfl, rfl, rfl⟩
    simp [vcnl4010_probe, h0, h1, h2, h3, Kernel.stageError]
  · obtain ⟨⟨⟨⟨h0, h1⟩, h2⟩, h3⟩, h4⟩ := h
    have hc : (vcnl4010_probe k bus w).world.calls =
        w.calls ++ [Call.devm_kzalloc, Call.alloc_chrdev_region 0 1, Call.class_create,
          Call.device_create_with_groups k.class_create_ptr k.alloc_chrdev_region_dev,
          Call.cdev_init, Call.cdev_add k.alloc_chrdev_region_dev 1,
          Call.device_destroy k.class_create_ptr k.alloc_chrdev_region_dev,
          Call.class_destroy k.class_create_ptr,
          Call.unregister_chrdev_region k.alloc_chrdev_region_dev 1] := by
      simp [vcnl4010_probe, h0, h1, h2, h3, h4, call, pr_err]
    rw [callsAfter_append w _ _ hc]
    refine ⟨?_, rfl, rfl, rfl, rfl⟩
    simp [vcnl4010_probe, h0, h1, h2, h3, h4, Kernel.stageError]

/-- Witness of C5: a failure with -12 at each of the four stages in turn. -/
theorem probe_failure_rollback_witness :
    (kernelFailChrdev.failsAt Resource.chrdev_region = true ∧
      (vcnl4010_probe kernelFailChrdev busOk World.empty).ret = -12 ∧
      releaseCalls (callsAfter World.empty
        (vcnl4010_probe kernelFailChrdev busOk World.empty).world) = []) ∧
    (kernelFailClass.failsAt Resource.class_handle = true ∧
      (vcnl4010_probe kernelFailClass busOk World.empty).ret = -12 ∧
      releaseCalls (callsAfter World.empty
        (vcnl4010_probe kernelFailClass busOk World.empty).world) =
        [Call.unregister_chrdev_region 251658240 1]) ∧
    (kernelFailNode.failsAt Resource.device_node = true ∧
      (vcnl4010_probe kernelFailNode busOk World.empty).ret = -12 ∧
      releaseCalls (callsAfter World.empty
        (vcnl4010_probe kernelFailNode busOk World.empty).world) =
        [Call.class_destroy 4096, Call.unregister_chrdev_region 251658240 1]) ∧
    (kernelFailCdev.failsAt Resource.cdev = true ∧
      (vcnl4010_probe kernelFailCdev busOk World.empty).ret = -12 ∧
      releaseCalls (callsAfter World.empty
        (vcnl4010_probe kernelFailCdev busOk World.empty).world) =
        [Call.device_destroy 4096 251658240, Call.class_destroy 4096,
          Call.unregister_chrdev_region 251658240 1]) :=
  ⟨⟨by decide,
    (probe_failure_rollback kernelFailChrdev busOk World.empty Resource.chrdev_region
      (by decide)).1,
    (probe_failure_rollback kernelFailChrdev busOk World.empty Resource.chrdev_region
      (by decide)).2.2.1⟩,
   ⟨by decide,
    (probe_failure_rollback kernelFailClass busOk World.empty Resource.class_handle
      (by decide)).1,
    (probe_failure_rollback kernelFailClass busOk World.empty Resource.class_handle
      (by decide)).2.2.1⟩,
   ⟨by decide,
    (probe_failure_rollback kernelFailNode busOk World.empty Resource.device_node
      (by decide)).1,
    (probe_failure_rollback kernelFailNode busOk World.empty Resource.device_node
      (by decide)).2.2.1⟩,
   ⟨by decide,
    (probe_failure_rollback kernelFailCdev busOk World.empty Resource.cdev
      (by decide)).1,
    (probe_failure_rollback kernelFailCdev busOk World.empty Resource.cdev
      (by decide)).2.2.1⟩⟩

/-- Calls of a probe whose structural acquisitions all succeed. -/
theorem probe_success_calls (k : Kernel) (bus : Bus) (w : World)
    (h : k.structuralOk = true) :
    (vcnl4010_probe k bus w).world.calls =
      w.calls ++ [Call.devm_kzalloc, Call.alloc_chrdev_region 0 1, Call.class_create,
        Call.device_create_with_groups k.class_create_ptr k.alloc_chrdev_region_dev,
        Call.cdev_init, Call.cdev_add k.alloc_chrdev_region_dev 1,
        Call.i2c_smbus_write_byte_data 0x80 0xFF, Call.i2c_smbus_write_byte_data 0x82 0x00,
        Call.i2c_smbus_write_byte_data 0x84 0x9D] ∧
    (vcnl4010_probe k bus w).ret = 0 ∧
    (vcnl4010_probe k bus w).drvdata = some k.device := by
  simp only [Kernel.structuralOk, Bool.and_eq_true, Bool.not_eq_true', decide_eq_true_eq,
    decide_eq_false_iff_not] at h
  obtain ⟨⟨⟨⟨h0, h1⟩, h2⟩, h3⟩, h4⟩ := h
  simp [vcnl4010_probe, h0, h1, h2, h3, h4, call, pr_info, Kernel.device]

/-- Calls of remove. -/
theorem remove_calls (d : vcnl4010) (w : World) :
    (vcnl4010_remove d w).2.calls =
      w.calls ++ [Call.cdev_del, Call.device_destroy d.cls d.dev, Call.class_destroy d.cls,
        Call.unregister_chrdev_region d.dev 1] := by
  simp [vcnl4010_remove, call, pr_info]

/-- C6: when every structural acquisition succeeds then, whatever each
register write returns, probe issues exactly three bus transfers, in this
order: register 0x80 = 0xFF, register 0x82 = 0x00, register 0x84 (ambient
light parameter) = 0x9D; it releases nothing and returns 0. -/
theorem probe_success_default_writes (k : Kernel) (bus : Bus) (w : World)
    (h : k.structuralOk = true) :
    busTransfers (callsAfter w (vcnl4010_probe k bus w).world) =
      [Call.i2c_smbus_write_byte_data 0x80 0xFF, Call.i2c_smbus_write_byte_data 0x82 0x00,
        Call.i2c_smbus_write_byte_data 0x84 0x9D] ∧
    releaseCalls (callsAfter w (vcnl4010_probe k bus w).world) = [] ∧
    (vcnl4010_probe k bus w).ret = 0 := by
  obtain ⟨hc, hr, _⟩ := probe_success_calls k bus w h
  rw [callsAfter_append w _ _ hc]
  exact ⟨rfl, rfl, hr⟩

/-- Witness of C6: all three default writes fail with -5, probe still issues
them in order and returns 0. -/
theorem probe_success_default_writes_witness :
    kernelOk.structuralOk = true ∧
    (busTransfers (callsAfter World.empty (vcnl4010_probe kernelOk busFail World.empty).world) =
      [Call.i2c_smbus_write_byte_data 0x80 0xFF, Call.i2c_smbus_write_byte_data 0x82 0x00,
        Call.i2c_smbus_write_byte_data 0x84 0x9D] ∧
     releaseCalls (callsAfter World.empty (vcnl4010_probe kernelOk busFail World.empty).world)
       = [] ∧
     (vcnl4010_probe kernelOk busFail World.empty).ret = 0) :=
  ⟨by decide, probe_success_default_writes kernelOk busFail World.empty (by decide)⟩

/-! ## Remove -/

/-- C9: after a probe whose structural acquisitions all succeed, remove on the
resulting driver data returns 0 and makes exactly the release calls
`cdev_del`, `device_destroy`, `class_destroy`, `unregister_chrdev_region`,
each once and without any test; probe acquired device number, class, device
node, cdev in that order, and the resources released by remove are those
acquired by probe in exactly the reverse order. -/
theorem remove_reverses_probe (k : Kernel) (bus : Bus) (w w2 : World)
    (h : k.structuralOk = true) :
    (vcnl4010_probe k bus w).drvdata = some k.device ∧
    (vcnl4010_remove k.device w2).1 = 0 ∧
    callsAfter w2 (vcnl4010_remove k.device w2).2 =
      [Call.cdev_del, Call.device_destroy k.class_create_ptr k.alloc_chrdev_region_dev,
        Call.class_destroy k.class_create_ptr,
        Call.unregister_chrdev_region k.alloc_chrdev_region_dev 1] ∧
    (callsAfter w (vcnl4010_probe k bus w).world).filterMap Call.acquires =
      [Resource.chrdev_region, Resource.class_handle, Resource.device_node, Resource.cdev] ∧
    (callsAfter w2 (vcnl4010_remove k.device w2).2).filterMap Call.releases =
      ((callsAfter w (vcnl4010_probe k bus w).world).filterMap Call.acquires).reverse := by
  obtain ⟨hc, _, hd⟩ := probe_success_calls k bus w h
  rw [callsAfter_append w _ _ hc, callsAfter_append w2 _ _ (remove_calls k.device w2)]
  exact ⟨hd, rfl, rfl, rfl, rfl⟩

/-- Witness of C9: probe on a kernel where everything succeeds, then remove. -/
theorem remove_reverses_probe_witness :
    kernelOk.structuralOk = true ∧
    ((vcnl4010_probe kernelOk busOk World.empty).drvdata = some kernelOk.device ∧
     (vcnl4010_remove kernelOk.device (vcnl4010_probe kernelOk busOk World.empty).world).1 = 0 ∧
     callsAfter (vcnl4010_probe kernelOk busOk World.empty).world
       (vcnl4010_remove kernelOk.device (vcnl4010_probe kernelOk busOk World.empty).world).2 =
       [Call.cdev_del,
         Call.device_destroy kernelOk.class_create_ptr kernelOk.alloc_chrdev_region_dev,
         Call.class_destroy kernelOk.class_create_ptr,
         Call.unregister_chrdev_region kernelOk.alloc_chrdev_region_dev 1] ∧
     (callsAfter World.empty (vcnl4010_probe kernelOk busOk World.empty).world).filterMap
       Call.acquires =
       [Resource.chrdev_region, Resource.class_handle, Resource.device_node, Resource.cdev] ∧
     (callsAfter (vcnl4010_probe kernelOk busOk World.empty).world
       (vcnl4010_remove kernelOk.device
         (vcnl4010_probe kernelOk busOk World.empty).world).2).filterMap Call.releases =
       ((callsAfter World.empty (vcnl4010_probe kernelOk busOk World.empty).world).filterMap
         Call.acquires).reverse) :=
  ⟨by decide,
   remove_reverses_probe kernelOk busOk World.empty
     (vcnl4010_probe kernelOk busOk World.empty).world (by decide)⟩

/-- C7 is false as stated: on the device bound by a successful probe, the
second of two remove calls performs the four releases again, and the releases
after two calls differ from the releases after one call. -/
theorem remove_twice_releases_again :
    (vcnl4010_probe kernelOk busOk World.empty).drvdata = some ⟨251658240, 4096⟩ ∧
    releaseCalls (callsAfter (vcnl4010_remove ⟨251658240, 4096⟩ World.empty).2
      (vcnl4010_remove ⟨251658240, 4096⟩
        (vcnl4010_remove ⟨251658240, 4096⟩ World.empty).2).2) =
      [Call.cdev_del, Call.device_destroy 4096 251658240, Call.class_destroy 4096,
        Call.unregister_chrdev_region 251658240 1] ∧
    releaseCalls (vcnl4010_remove ⟨251658240, 4096⟩
        (vcnl4010_remove ⟨251658240, 4096⟩ World.empty).2).2.calls ≠
      releaseCalls (vcnl4010_remove ⟨251658240, 4096⟩ World.empty).2.calls := by
  refine ⟨?_, ?_, ?_⟩ <;> decide

/-- C7 amended: remove keeps no record of having run.  For every device and
every history, each of two remove calls in sequence returns 0 and performs
the same four releases (`cdev_del`, `device_destroy`, `class_destroy`,
`unregister_chrdev_region`), so the calls after two removes are the calls of
one remove repeated twice. -/
theorem remove_twice_repeats_releases (d : vcnl4010) (w : World) :
    (vcnl4010_remove d (vcnl4010_remove d w).2).1 = 0 ∧
    callsAfter (vcnl4010_remove d w).2 (vcnl4010_remove d (vcnl4010_remove d w).2).2 =
      callsAfter w (vcnl4010_remove d w).2 ∧
    releaseCalls (callsAfter w (vcnl4010_remove d (vcnl4010_remove d w).2).2) =
      [Call.cdev_del, Call.device_destroy d.cls d.dev, Call.class_destroy d.cls,
        Call.unregister_chrdev_region d.dev 1,
        Call.cdev_del, Call.device_destroy d.cls d.dev, Call.class_destroy d.cls,
        Call.unregister_chrdev_region d.dev 1] := by
  have h1 := remove_calls d w
  have h2 := remove_calls d (vcnl4010_remove d w).2
  have h3 : (vcnl4010_remove d (vcnl4010_remove d w).2).2.calls =
      w.calls ++ [Call.cdev_del, Call.device_destroy d.cls d.dev, Call.class_destroy d.cls,
        Call.unregister_chrdev_region d.dev 1,
        Call.cdev_del, Call.device_destroy d.cls d.dev, Call.class_destroy d.cls,
        Call.unregister_chrdev_region d.dev 1] := by
    rw [h2, h1]; simp
  rw [callsAfter_append _ _ _ h1, callsAfter_append _ _ _ h2, callsAfter_append _ _ _ h3]
  exact ⟨rfl, rfl, rfl⟩

end Vcnl4010
